import Mathlib

set_option maxRecDepth 8000

/-!
Formal model of the veriff identity-verification engine.

The definitions below are a shallow embedding of the evaluation engine of
the repository: the data model (`Case`), the five signal evaluators, the
decision resolver `runFullEvaluation` (models.py), the policy simulator
`simulateDecision` (views.py) and the intake validation (forms.py).
Python integers are modelled as `Int`; the one floating-point expression in
the code base (`evaluate_biometrics`) is modelled with an explicit IEEE-754
binary64 round-to-nearest-even function `fl` over `ℚ`.
-/

namespace Veriff

/-- A Python `datetime.date`: year, month, day. -/
structure PyDate where
  year : Int
  month : Int
  day : Int
deriving DecidableEq

/-- Python date ordering `a <= b`: lexicographic on (year, month, day). -/
def PyDate.ble (a b : PyDate) : Bool :=
  decide (a.year < b.year) ||
    (decide (a.year = b.year) &&
      (decide (a.month < b.month) || (decide (a.month = b.month) && decide (a.day ≤ b.day))))

/-- Python tuple comparison `(m1, d1) < (m2, d2)` used by `evaluate_age`. -/
def monthDayLt (m1 d1 m2 d2 : Int) : Bool :=
  decide (m1 < m2) || (decide (m1 = m2) && decide (d1 < d2))

/-- The four case statuses of `VerificationCase.STATUS_CHOICES`. -/
inductive Status where
  | pending
  | needs_review
  | approved
  | rejected
deriving DecidableEq

/-- The structured AML finding record built by `evaluate_aml`. -/
structure AmlFindings where
  pep : Bool
  sanctions : Bool
  adverse_media : Bool
  notes : List String
deriving DecidableEq

/-- The `VerificationCase` model: declared attributes followed by the
derived fields written by the engine. -/
structure Case where
  full_name : String
  email : String
  country : String
  issuing_country : String
  document_type : String
  document_number : String
  date_of_birth : PyDate
  doc_expiry : PyDate
  ip_country : String
  device_os : String
  device_fingerprint : String
  attempt_count : Int
  onboarding_channel : String
  selfie_quality : Int
  doc_authenticity_score : Int
  face_match_score : Int
  liveness_passed : Bool
  fraud_risk_score : Int
  fraud_signals : List String
  aml_findings : AmlFindings
  age_verified : Bool
  status : Status
  risk_summary : String
deriving DecidableEq

/-! IEEE-754 binary64 model, used by `evaluateBiometrics` for the Python
expression `self.selfie_quality * 0.6 + self.doc_authenticity_score * 0.4`.
A float is a dyadic number `m * 2 ^ e` with a 53-bit significand; every
operation rounds its exact result to nearest, ties to even. The exponent
range is unrestricted, which coincides with binary64 for every magnitude the
engine can produce. -/

/-- Fuelled base-2 logarithm on naturals (structural recursion so that the
kernel can evaluate it): `log2Fuel f n = ⌊log₂ n⌋` whenever `0 < n ≤ f`. -/
def log2Fuel : Nat → Nat → Nat
  | 0, _ => 0
  | f + 1, n => if n < 2 then 0 else log2Fuel f (n / 2) + 1

/-- Number of binary digits of a natural number. -/
def bitLenN (n : Nat) : Nat :=
  if n = 0 then 0 else log2Fuel n n + 1

/-- A binary64 value `m * 2 ^ e`. -/
structure F64 where
  m : Int
  e : Int
deriving DecidableEq

/-- Round the value `q + r / d` (with `0 ≤ r < d`) to the nearest natural,
ties to even. -/
def roundMag (q r d : Nat) : Nat :=
  if 2 * r < d then q
  else if d < 2 * r then q + 1
  else if q % 2 = 0 then q else q + 1

/-- The binary64 value nearest to the positive rational `num / den`:
the exponent is `⌊log₂ (num / den)⌋` and the 53-bit significand is obtained
by rounding `num / den * 2 ^ (52 - e)`, ties to even. -/
def ratPosToF64 (num den : Nat) : F64 :=
  let l : Int := (bitLenN num : Int) - (bitLenN den : Int)
  let ge2 : Int → Bool := fun c =>
    if 0 ≤ c then decide (den * 2 ^ c.toNat ≤ num) else decide (den ≤ num * 2 ^ (-c).toNat)
  let e : Int := if ge2 (l + 1) then l + 1 else if ge2 l then l else l - 1
  let bigN := num * 2 ^ ((52 - e).toNat)
  let bigD := den * 2 ^ ((e - 52).toNat)
  ⟨(roundMag (bigN / bigD) (bigN % bigD) bigD : Int), e - 52⟩

/-- Round a dyadic `m * 2 ^ e` to a 53-bit significand, ties to even. -/
def roundF64 (m e : Int) : F64 :=
  if m = 0 then ⟨0, 0⟩
  else
    let a := m.natAbs
    let b := bitLenN a
    if b ≤ 53 then ⟨m, e⟩
    else
      let sh := b - 53
      let mm : Int := roundMag (a / 2 ^ sh) (a % 2 ^ sh) (2 ^ sh)
      ⟨if 0 ≤ m then mm else -mm, e + sh⟩

/-- Binary64 multiplication: exact product, then rounding. -/
def fmul (a b : F64) : F64 := roundF64 (a.m * b.m) (a.e + b.e)

/-- Binary64 addition: exact sum on a common exponent, then rounding. -/
def fadd (a b : F64) : F64 :=
  let e := min a.e b.e
  roundF64 (a.m * 2 ^ (a.e - e).toNat + b.m * 2 ^ (b.e - e).toNat) e

/-- Python conversion of an `int` to a float. -/
def intToF64 (i : Int) : F64 :=
  if i = 0 then ⟨0, 0⟩
  else if 0 ≤ i then ratPosToF64 i.toNat 1
  else
    let f := ratPosToF64 i.natAbs 1
    ⟨-f.m, f.e⟩

/-- The binary64 value of the Python literal `0.6`. -/
def float06 : F64 := ratPosToF64 3 5

/-- The binary64 value of the Python literal `0.4`. -/
def float04 : F64 := ratPosToF64 2 5

/-- Python `int()` on a float: truncation toward zero. -/
def truncF64 (x : F64) : Int :=
  let a := x.m.natAbs
  let v : Nat := if 0 ≤ x.e then a * 2 ^ x.e.toNat else a / 2 ^ (-x.e).toNat
  if 0 ≤ x.m then (v : Int) else -(v : Int)

/-- The float value of `selfie_quality * 0.6 + doc_authenticity_score * 0.4`
as Python computes it: the ints are converted to binary64, then two rounded
products and one rounded sum. -/
def biometricBase (sq doc : Int) : F64 :=
  fadd (fmul (intToF64 sq) float06) (fmul (intToF64 doc) float04)

/-! The signal evaluators of `VerificationCase` (models.py). -/

/-- `evaluate_document`: score document authenticity; returns the score and
the reason flags. -/
def evaluateDocument (c : Case) (today : PyDate) : Int × List String :=
  let s0 : Int × List String := (92, [])
  let s1 :=
    if c.document_number.length < 6 then
      (s0.1 - 22, s0.2 ++ ["Document number is shorter than expected"])
    else s0
  let s2 :=
    if c.doc_expiry.ble today then
      (s1.1 - 35, s1.2 ++ ["Document expired"])
    else s1
  let s3 :=
    if c.country ≠ "" ∧ c.issuing_country ≠ "" ∧ c.country ≠ c.issuing_country then
      (s2.1 - 10, s2.2 ++ ["Residence country differs from issuing country"])
    else s2
  (max s3.1 0, s3.2)

/-- `evaluate_biometrics`: face match score, liveness flag and reasons. -/
def evaluateBiometrics (c : Case) : Int × Bool × List String :=
  let base := biometricBase c.selfie_quality c.doc_authenticity_score
  let face_match : Int := max 30 (min (truncF64 base) 100)
  let liveness : Bool := decide (55 ≤ c.selfie_quality) && decide (c.attempt_count ≤ 4)
  let reasons :=
    (if liveness then [] else ["Motion / liveness confidence below threshold"]) ++
      (if face_match < 65 then ["Face match below recommended threshold"] else [])
  (face_match, liveness, reasons)

/-- `evaluate_fraud`: device/velocity/behaviour risk score and signals.
`reuseCount` is the store lookup counting other cases sharing the device
fingerprint. -/
def evaluateFraud (c : Case) (reuseCount : Nat) : Int × List String :=
  let s0 : Int × List String := (10, [])
  let s1 :=
    if c.ip_country ≠ "" ∧ c.country ≠ "" ∧ c.ip_country ≠ c.country then
      (s0.1 + 18, s0.2 ++ ["IP geolocation differs from claimed country"])
    else s0
  let s2 :=
    if 2 < c.attempt_count then
      (s1.1 + min 25 ((c.attempt_count - 1) * 6),
        s1.2 ++ [toString c.attempt_count ++ " capture attempts in session"])
    else s1
  let s3 :=
    if c.device_fingerprint ≠ "" ∧ reuseCount ≠ 0 then
      (s2.1 + 22,
        s2.2 ++ ["Device fingerprint seen in " ++ toString reuseCount ++ " other case(s)"])
    else s2
  let s4 :=
    if c.doc_authenticity_score < 60 then
      (s3.1 + 14, s3.2 ++ ["Low document security score"])
    else s3
  (min s4.1 100, s4.2)

/-- `listPrefixB n l` is true when `n` is an initial segment of `l`. -/
def listPrefixB : List Char → List Char → Bool
  | [], _ => true
  | _ :: _, [] => false
  | a :: as, b :: bs => a == b && listPrefixB as bs

/-- `listInfixB n l` is true when `n` occurs contiguously inside `l`. -/
def listInfixB (needle : List Char) : List Char → Bool
  | [] => listPrefixB needle []
  | b :: bs => listPrefixB needle (b :: bs) || listInfixB needle bs

/-- Python substring test `needle in haystack`. -/
def strContains (haystack needle : String) : Bool :=
  listInfixB needle.toList haystack.toList

/-- Python `str.endswith`. -/
def strEndsWith (s suf : String) : Bool :=
  listPrefixB suf.toList.reverse s.toList.reverse

/-- Python `str.lower` (the engine only ever compares ASCII keywords). -/
def strLower (s : String) : String :=
  ⟨s.toList.map Char.toLower⟩

/-- `evaluate_aml`: PEP / sanctions / adverse-media findings from pattern
checks on name, document number and email. -/
def evaluateAml (c : Case) : AmlFindings :=
  let lowered := strLower c.full_name
  let pep :=
    strContains lowered "minister" || strContains lowered "senator" ||
      strContains lowered "mp" || strContains lowered "council"
  let sanc := strEndsWith c.document_number "999"
  let loweredEmail := strLower c.email
  let adv :=
    strEndsWith loweredEmail ".ru" || strEndsWith loweredEmail ".cn" ||
      strEndsWith loweredEmail ".ir" || strEndsWith loweredEmail ".kp"
  { pep := pep
    sanctions := sanc
    adverse_media := adv
    notes :=
      (if pep then ["Potential PEP keyword in name"] else []) ++
        (if sanc then ["Document number pattern seen on sanctions list sample"] else []) ++
          (if adv then ["Email TLD flagged for adverse media screening"] else []) }

/-- `evaluate_age`: calendar-aware age and the 18+ check. -/
def evaluateAge (c : Case) (today : PyDate) : Int × Bool :=
  let age :=
    today.year - c.date_of_birth.year -
      (if monthDayLt today.month today.day c.date_of_birth.month c.date_of_birth.day
       then 1 else 0)
  (age, decide (18 ≤ age))

/-- `run_full_evaluation`: run every evaluator, write the derived fields and
resolve the final status and risk summary. The current date and the device
fingerprint reuse count are explicit inputs (the code reads them from the
clock and the case store). -/
def runFullEvaluation (c : Case) (reuseCount : Nat) (today : PyDate) : Case :=
  let docR := evaluateDocument c today
  let c1 := { c with doc_authenticity_score := docR.1 }
  let bioR := evaluateBiometrics c1
  let c2 := { c1 with face_match_score := bioR.1, liveness_passed := bioR.2.1 }
  let fraudR := evaluateFraud c2 reuseCount
  let c3 := { c2 with fraud_risk_score := fraudR.1, fraud_signals := fraudR.2 }
  let c4 := { c3 with aml_findings := evaluateAml c3 }
  let ageR := evaluateAge c4 today
  let c5 := { c4 with age_verified := ageR.2 }
  let amlHits :=
    (if c4.aml_findings.pep then ["pep"] else []) ++
      (if c4.aml_findings.sanctions then ["sanctions"] else []) ++
        (if c4.aml_findings.adverse_media then ["adverse_media"] else [])
  let reasons :=
    docR.2 ++ bioR.2.2 ++ fraudR.2 ++
      (if amlHits = [] then [] else ["AML flags: " ++ String.intercalate ", " amlHits]) ++
        (if ageR.2 then [] else ["Age " ++ toString ageR.1 ++ " under threshold"])
  let status :=
    if c4.aml_findings.sanctions = true then Status.rejected
    else if c5.doc_authenticity_score < 55 ∨ c5.face_match_score < 60 ∨
        c5.liveness_passed = false then Status.needs_review
    else if 45 ≤ c5.fraud_risk_score then Status.needs_review
    else Status.approved
  { c5 with
    status := status
    risk_summary :=
      if reasons = [] then "All signals within acceptable ranges"
      else String.intercalate "; " reasons }

/-! The policy simulator and the risk-tuning thresholds (views.py). -/

/-- The threshold set the risk-tuning form hands to `simulate_decision`
(every field is always present: `RiskTuningForm` requires all four). -/
structure Thresholds where
  min_doc_score : Int
  min_face_match : Int
  fraud_review_cutoff : Int
  enforce_liveness : Bool
deriving DecidableEq

/-- The dictionary `simulate_decision` returns. -/
structure SimResult where
  decision : Status
  reasons : List String
  caseRef : Case
  thresholds : Thresholds
deriving DecidableEq

/-- `simulate_decision` (views.py): apply custom thresholds to a case
without persisting. Each failing check reassigns `decision` and appends its
reason, in source order. -/
def simulateDecision (c : Case) (t : Thresholds) : SimResult :=
  let s0 : Status × List String := (Status.approved, [])
  let s1 :=
    if c.aml_findings.sanctions = true then
      (Status.rejected, s0.2 ++ ["Sanctions hit"])
    else s0
  let s2 :=
    if t.enforce_liveness = true ∧ c.liveness_passed = false then
      (Status.needs_review, s1.2 ++ ["Liveness required but not passed"])
    else s1
  let s3 :=
    if c.doc_authenticity_score < t.min_doc_score then
      (Status.needs_review, s2.2 ++ ["Doc authenticity below " ++ toString t.min_doc_score])
    else s2
  let s4 :=
    if c.face_match_score < t.min_face_match then
      (Status.needs_review, s3.2 ++ ["Face match below " ++ toString t.min_face_match])
    else s3
  let s5 :=
    if t.fraud_review_cutoff ≤ c.fraud_risk_score then
      (Status.needs_review, s4.2 ++ ["Fraud score above " ++ toString t.fraud_review_cutoff])
    else s4
  let s6 :=
    if c.age_verified = false then
      (Status.needs_review, s5.2 ++ ["Age under threshold"])
    else s5
  { decision := s6.1
    reasons := if s6.2 = [] then ["All signals within thresholds"] else s6.2
    caseRef := c
    thresholds := t }

/-! Intake validation (forms.py). -/

/-- The validation errors `VerificationCaseForm` raises for the submitted
`attempt_count` value: the model field is a `PositiveIntegerField` (its form
field validates `0 ≤ value ≤ 2147483647`) and `VerificationCaseForm.clean`
adds an error whenever the value is below one. Validation never alters the
submitted value. -/
def attemptCountFormErrors (a : Int) : List String :=
  (if a < 0 then ["Ensure this value is greater than or equal to 0."] else []) ++
    (if 2147483647 < a then ["Ensure this value is less than or equal to 2147483647."] else []) ++
      (if a < 1 then ["Attempts must be at least one."] else [])

/-- The `start_verification` view (views.py): evaluation runs only when the
form is valid; an invalid submission produces no case. (The attempt-count
checks are the only validation relevant here; the other form fields are
passed through unchanged.) -/
def startVerification (c : Case) (reuseCount : Nat) (today : PyDate) : Option Case :=
  if attemptCountFormErrors c.attempt_count = [] then
    some (runFullEvaluation c reuseCount today)
  else none

/-! Spec-side definitions, written from the wording of the specification so
they can be compared with the code-side definitions above. -/

/-- Written from the spec wording for the biometric evaluator:
`face-match = clamp(round(0.6·selfie_quality + 0.4·doc_score), 30, 100)`,
with exact (real) arithmetic and rounding to the nearest integer. -/
def specFaceMatchRounded (sq doc : Int) : Int :=
  max 30 (min (round ((6 * sq + 4 * doc : ℚ) / 10)) 100)

/-- One reason per failing simulator check, in the literal check order
sanctions → liveness → doc score → face match → fraud score → age. -/
def simulateFailedChecks (c : Case) (t : Thresholds) : List String :=
  ((((((if c.aml_findings.sanctions = true then ["Sanctions hit"] else []) ++
    (if t.enforce_liveness = true ∧ c.liveness_passed = false then
      ["Liveness required but not passed"] else [])) ++
      (if c.doc_authenticity_score < t.min_doc_score then
        ["Doc authenticity below " ++ toString t.min_doc_score] else [])) ++
        (if c.face_match_score < t.min_face_match then
          ["Face match below " ++ toString t.min_face_match] else [])) ++
          (if t.fraud_review_cutoff ≤ c.fraud_risk_score then
            ["Fraud score above " ++ toString t.fraud_review_cutoff] else [])) ++
            (if c.age_verified = false then ["Age under threshold"] else []))

/-! Concrete data used to instantiate the theorems below. -/

/-- A date used as "today" in concrete instantiations. -/
def today0 : PyDate := ⟨2026, 10, 12⟩

/-- A well-formed, unremarkable case, mirroring the base payload of the
repository test suite. -/
def baseCase : Case where
  full_name := "Test User"
  email := "user@test.dev"
  country := "Estonia"
  issuing_country := "Estonia"
  document_type := "passport"
  document_number := "P1234567"
  date_of_birth := ⟨1990, 1, 1⟩
  doc_expiry := ⟨2027, 10, 12⟩
  ip_country := "Estonia"
  device_os := "web"
  device_fingerprint := "web-abc"
  attempt_count := 1
  onboarding_channel := "web"
  selfie_quality := 80
  doc_authenticity_score := 0
  face_match_score := 0
  liveness_passed := false
  fraud_risk_score := 0
  fraud_signals := []
  aml_findings := ⟨false, false, false, []⟩
  age_verified := false
  status := Status.pending
  risk_summary := ""

/-- A case whose document number matches the sanctions pattern. -/
def caseSanctioned : Case := { baseCase with document_number := "ABC999" }

/-- Inputs on which float truncation and exact rounding disagree:
`0.6 * 70 + 0.4 * 92 = 78.8`. -/
def caseTrunc : Case :=
  { baseCase with selfie_quality := 70, doc_authenticity_score := 92 }

/-- A name containing the raw substring "mp". -/
def caseThompson : Case := { baseCase with full_name := "Alex Thompson" }

/-- A submission with a below-minimum attempt count. -/
def caseBadIntake : Case := { baseCase with attempt_count := 0 }

/-- An already-evaluated case with a sanctions hit and a failing fraud
score stored on it. -/
def caseStoredSanc : Case :=
  { baseCase with
    aml_findings := ⟨false, true, false, ["Document number pattern seen on sanctions list sample"]⟩
    doc_authenticity_score := 80
    face_match_score := 80
    liveness_passed := true
    fraud_risk_score := 70
    age_verified := true
    status := Status.rejected }

/-- The default threshold set of `RiskTuningForm`. -/
def defaultThresholds : Thresholds :=
  { min_doc_score := 55, min_face_match := 60, fraud_review_cutoff := 45, enforce_liveness := true }

/-! Theorems. -/

/-- C5: for every case, the Document Authenticity evaluator returns
`max(0, 92 - 22·[document number length < 6] - 35·[expiry ≤ today]
- 10·[countries both non-empty and different])`, the deductions being
independent and additive, and reports exactly one reason per triggered
deduction. -/
theorem evaluateDocument_additive (c : Case) (d : PyDate) :
    (evaluateDocument c d).1 =
      max 0 (92 - (if c.document_number.length < 6 then 22 else 0)
        - (if c.doc_expiry.ble d = true then 35 else 0)
        - (if c.country ≠ "" ∧ c.issuing_country ≠ "" ∧ c.country ≠ c.issuing_country
           then 10 else 0)) ∧
    (evaluateDocument c d).2 =
      (if c.document_number.length < 6 then ["Document number is shorter than expected"] else []) ++
        (if c.doc_expiry.ble d = true then ["Document expired"] else []) ++
          (if c.country ≠ "" ∧ c.issuing_country ≠ "" ∧ c.country ≠ c.issuing_country
           then ["Residence country differs from issuing country"] else []) := by
  unfold evaluateDocument
  by_cases h1 : c.document_number.length < 6 <;>
    by_cases h2 : c.doc_expiry.ble d = true <;>
      by_cases h3 : c.country ≠ "" ∧ c.issuing_country ≠ "" ∧ c.country ≠ c.issuing_country <;>
        simp [h1, h2, h3]

/-- C7: the policy simulator is read-only: the case it returns is the very
case it was given, with every declared and derived field unchanged. -/
theorem simulateDecision_readonly (c : Case) (t : Thresholds) :
    (simulateDecision c t).caseRef = c := rfl

/-- C1: after a full evaluation run, a sanctions hit in the AML findings
forces the rejected status, regardless of every other score, flag or
attribute. -/
theorem sanctions_always_rejected (c : Case) (r : Nat) (d : PyDate)
    (h : (evaluateAml c).sanctions = true) :
    (runFullEvaluation c r d).status = Status.rejected := by
  unfold evaluateAml at h
  unfold runFullEvaluation evaluateAml
  simp only [] at h ⊢
  simp [h]

/-- Witness for C1 at a concrete case whose document number ends in "999". -/
theorem sanctions_always_rejected_witness :
    (evaluateAml caseSanctioned).sanctions = true ∧
    (runFullEvaluation caseSanctioned 0 today0).status = Status.rejected :=
  ⟨by decide, sanctions_always_rejected caseSanctioned 0 today0 (by decide)⟩

set_option maxHeartbeats 1600000 in
/-- C2: the simulator starts at approved and lets every failing check
overwrite the status in the literal order sanctions → liveness → doc score
→ face match → fraud score → age, so the final decision is the verdict of
the last failing check; the reasons list holds one entry per failed check
in that order; and on a sanctioned case whose fraud score reaches the
review cutoff the decision is needs-review, not rejected. -/
theorem simulateDecision_sequential (c : Case) (t : Thresholds) :
    ((simulateDecision c t).decision =
      (if c.age_verified = false then Status.needs_review
       else if t.fraud_review_cutoff ≤ c.fraud_risk_score then Status.needs_review
       else if c.face_match_score < t.min_face_match then Status.needs_review
       else if c.doc_authenticity_score < t.min_doc_score then Status.needs_review
       else if t.enforce_liveness = true ∧ c.liveness_passed = false then Status.needs_review
       else if c.aml_findings.sanctions = true then Status.rejected
       else Status.approved)) ∧
    ((simulateDecision c t).reasons =
      if simulateFailedChecks c t = [] then ["All signals within thresholds"]
      else simulateFailedChecks c t) ∧
    (c.aml_findings.sanctions = true → t.fraud_review_cutoff ≤ c.fraud_risk_score →
      (simulateDecision c t).decision = Status.needs_review ∧
      (simulateDecision c t).decision ≠ Status.rejected) := by
  have hd : (simulateDecision c t).decision =
      (if c.age_verified = false then Status.needs_review
       else if t.fraud_review_cutoff ≤ c.fraud_risk_score then Status.needs_review
       else if c.face_match_score < t.min_face_match then Status.needs_review
       else if c.doc_authenticity_score < t.min_doc_score then Status.needs_review
       else if t.enforce_liveness = true ∧ c.liveness_passed = false then Status.needs_review
       else if c.aml_findings.sanctions = true then Status.rejected
       else Status.approved) := by
    unfold simulateDecision
    split_ifs <;> rfl
  have hr : (simulateDecision c t).reasons =
      if simulateFailedChecks c t = [] then ["All signals within thresholds"]
      else simulateFailedChecks c t := by
    unfold simulateDecision simulateFailedChecks
    split_ifs <;> first | rfl | simp_all
  refine ⟨hd, hr, fun hs hf => ?_⟩
  have hrev : (simulateDecision c t).decision = Status.needs_review := by
    rw [hd]
    by_cases ha : c.age_verified = false <;> simp [ha, hf]
  exact ⟨hrev, by rw [hrev]; decide⟩

/-- Witness for C2 at a stored case with a sanctions hit and a fraud score
at the review cutoff: the simulated decision is needs-review, not
rejected. -/
theorem simulateDecision_sequential_witness :
    caseStoredSanc.aml_findings.sanctions = true ∧
    defaultThresholds.fraud_review_cutoff ≤ caseStoredSanc.fraud_risk_score ∧
    (simulateDecision caseStoredSanc defaultThresholds).decision = Status.needs_review ∧
    (simulateDecision caseStoredSanc defaultThresholds).decision ≠ Status.rejected := by
  obtain ⟨h1, h2⟩ :=
    (simulateDecision_sequential caseStoredSanc defaultThresholds).2.2 (by decide) (by decide)
  exact ⟨by decide, by decide, h1, h2⟩

/-- C3: when the evaluated case has no sanctions hit, the resolver routes to
needs-review exactly when `doc < 55 ∨ face < 60 ∨ ¬liveness ∨ fraud ≥ 45`,
and to approved otherwise; age failure and pep / adverse-media flags alone
never move the status away from approved. -/
theorem resolver_review_approved (c : Case) (r : Nat) (d : PyDate)
    (h : (evaluateAml c).sanctions = false) :
    ((runFullEvaluation c r d).status = Status.needs_review ↔
      ((runFullEvaluation c r d).doc_authenticity_score < 55 ∨
        (runFullEvaluation c r d).face_match_score < 60 ∨
        (runFullEvaluation c r d).liveness_passed = false ∨
        45 ≤ (runFullEvaluation c r d).fraud_risk_score)) ∧
    ((runFullEvaluation c r d).status = Status.approved ↔
      ¬((runFullEvaluation c r d).doc_authenticity_score < 55 ∨
        (runFullEvaluation c r d).face_match_score < 60 ∨
        (runFullEvaluation c r d).liveness_passed = false ∨
        45 ≤ (runFullEvaluation c r d).fraud_risk_score)) := by
  have hs : strEndsWith c.document_number "999" = false := by
    simpa [evaluateAml] using h
  unfold runFullEvaluation evaluateAml
  simp only [hs, Bool.false_eq_true, if_false]
  refine ⟨⟨fun hx => ?_, fun hx => ?_⟩, ⟨fun hx => ?_, fun hx => ?_⟩⟩
  · split_ifs at hx with h1 h2
    · tauto
    · tauto
  · split_ifs with h1 h2
    · rfl
    · rfl
    · tauto
  · split_ifs at hx with h1 h2
    · tauto
  · split_ifs with h1 h2
    · tauto
    · tauto
    · rfl

/-- Witness for C3 at a concrete sanction-free case. -/
theorem resolver_review_approved_witness :
    (evaluateAml baseCase).sanctions = false ∧
    (((runFullEvaluation baseCase 0 today0).status = Status.needs_review ↔
      ((runFullEvaluation baseCase 0 today0).doc_authenticity_score < 55 ∨
        (runFullEvaluation baseCase 0 today0).face_match_score < 60 ∨
        (runFullEvaluation baseCase 0 today0).liveness_passed = false ∨
        45 ≤ (runFullEvaluation baseCase 0 today0).fraud_risk_score)) ∧
    ((runFullEvaluation baseCase 0 today0).status = Status.approved ↔
      ¬((runFullEvaluation baseCase 0 today0).doc_authenticity_score < 55 ∨
        (runFullEvaluation baseCase 0 today0).face_match_score < 60 ∨
        (runFullEvaluation baseCase 0 today0).liveness_passed = false ∨
        45 ≤ (runFullEvaluation baseCase 0 today0).fraud_risk_score))) :=
  ⟨by decide, resolver_review_approved baseCase 0 today0 (by decide)⟩

/-- C4 (amended): the face-match score is the clamp to [30, 100] of the
binary64 value of `0.6·selfie_quality + 0.4·doc_authenticity_score`
truncated toward zero (not rounded to nearest); the result always lies in
[30, 100]; liveness passes iff `selfie_quality ≥ 55` and `attempt_count
≤ 4`; the liveness reason appears exactly when liveness failed and the
face-match reason exactly when the score is below 65, independently. -/
theorem evaluateBiometrics_spec (c : Case) :
    (evaluateBiometrics c).1 =
      max 30 (min (truncF64 (biometricBase c.selfie_quality c.doc_authenticity_score)) 100) ∧
    30 ≤ (evaluateBiometrics c).1 ∧
    (evaluateBiometrics c).1 ≤ 100 ∧
    ((evaluateBiometrics c).2.1 = true ↔ 55 ≤ c.selfie_quality ∧ c.attempt_count ≤ 4) ∧
    ("Motion / liveness confidence below threshold" ∈ (evaluateBiometrics c).2.2 ↔
      (evaluateBiometrics c).2.1 = false) ∧
    ("Face match below recommended threshold" ∈ (evaluateBiometrics c).2.2 ↔
      (evaluateBiometrics c).1 < 65) := by
  have hface : (evaluateBiometrics c).1 =
      max 30 (min (truncF64 (biometricBase c.selfie_quality c.doc_authenticity_score)) 100) := rfl
  have hliv : (evaluateBiometrics c).2.1 =
      (decide (55 ≤ c.selfie_quality) && decide (c.attempt_count ≤ 4)) := rfl
  have hreasons : (evaluateBiometrics c).2.2 =
      ((if (decide (55 ≤ c.selfie_quality) && decide (c.attempt_count ≤ 4)) = true then []
        else ["Motion / liveness confidence below threshold"]) ++
        (if max 30 (min (truncF64 (biometricBase c.selfie_quality c.doc_authenticity_score)) 100)
            < 65
         then ["Face match below recommended threshold"] else [])) := rfl
  refine ⟨hface, ?_, ?_, ?_, ?_, ?_⟩
  · rw [hface]
    exact le_max_left _ _
  · rw [hface]
    exact max_le (by norm_num) (min_le_right _ _)
  · rw [hliv]
    simp
  · rw [hreasons, hliv]
    by_cases hl : (decide (55 ≤ c.selfie_quality) && decide (c.attempt_count ≤ 4)) = true <;>
      by_cases hf : max 30
          (min (truncF64 (biometricBase c.selfie_quality c.doc_authenticity_score)) 100) < 65 <;>
        simp [hl, hf]
  · rw [hreasons, hface]
    by_cases hl : (decide (55 ≤ c.selfie_quality) && decide (c.attempt_count ≤ 4)) = true <;>
      by_cases hf : max 30
          (min (truncF64 (biometricBase c.selfie_quality c.doc_authenticity_score)) 100) < 65 <;>
        simp [hl, hf]

/-- Counterexample to C4 as stated: at selfie quality 70 and document score
92 the float value is 78.80000000000001; the evaluator truncates it to 78,
while the claimed `clamp(round(0.6·70 + 0.4·92), 30, 100)` is 79. -/
theorem biometrics_rounding_counterexample :
    (evaluateBiometrics caseTrunc).1 = 78 ∧
    specFaceMatchRounded caseTrunc.selfie_quality caseTrunc.doc_authenticity_score = 79 ∧
    (evaluateBiometrics caseTrunc).1 ≠
      specFaceMatchRounded caseTrunc.selfie_quality caseTrunc.doc_authenticity_score := by
  have h78 : (evaluateBiometrics caseTrunc).1 = 78 := by decide
  have h79 : specFaceMatchRounded caseTrunc.selfie_quality caseTrunc.doc_authenticity_score
      = 79 := by
    show specFaceMatchRounded 70 92 = 79
    unfold specFaceMatchRounded
    have hr : round ((6 * ((70 : Int) : ℚ) + 4 * ((92 : Int) : ℚ)) / 10) = 79 := by
      rw [round_eq, Int.floor_eq_iff]
      constructor <;> norm_num
    rw [hr]
    omega
  exact ⟨h78, h79, by rw [h78, h79]; decide⟩

/-- C6: evaluation is idempotent: a second full run on the result of a
first run, with the same current date and the same fingerprint reuse
count, leaves every derived field identical. -/
theorem evaluation_idempotent (c : Case) (r : Nat) (d : PyDate) :
    (runFullEvaluation (runFullEvaluation c r d) r d).doc_authenticity_score =
      (runFullEvaluation c r d).doc_authenticity_score ∧
    (runFullEvaluation (runFullEvaluation c r d) r d).face_match_score =
      (runFullEvaluation c r d).face_match_score ∧
    (runFullEvaluation (runFullEvaluation c r d) r d).liveness_passed =
      (runFullEvaluation c r d).liveness_passed ∧
    (runFullEvaluation (runFullEvaluation c r d) r d).fraud_risk_score =
      (runFullEvaluation c r d).fraud_risk_score ∧
    (runFullEvaluation (runFullEvaluation c r d) r d).fraud_signals =
      (runFullEvaluation c r d).fraud_signals ∧
    (runFullEvaluation (runFullEvaluation c r d) r d).aml_findings =
      (runFullEvaluation c r d).aml_findings ∧
    (runFullEvaluation (runFullEvaluation c r d) r d).age_verified =
      (runFullEvaluation c r d).age_verified ∧
    (runFullEvaluation (runFullEvaluation c r d) r d).status =
      (runFullEvaluation c r d).status ∧
    (runFullEvaluation (runFullEvaluation c r d) r d).risk_summary =
      (runFullEvaluation c r d).risk_summary :=
  ⟨rfl, rfl, rfl, rfl, rfl, rfl, rfl, rfl, rfl⟩

/-- C8: with all other inputs fixed, the fraud risk score is monotone in
the attempt count over attempt counts 1 through 5. -/
theorem fraud_monotone_in_attempts (c : Case) (r : Nat) (a1 a2 : Int)
    (ha1 : 1 ≤ a1) (h12 : a1 ≤ a2) (ha2 : a2 ≤ 5) :
    (evaluateFraud { c with attempt_count := a1 } r).1 ≤
      (evaluateFraud { c with attempt_count := a2 } r).1 := by
  have score_eq : ∀ a : Int, (evaluateFraud { c with attempt_count := a } r).1 =
      min (10 + (if c.ip_country ≠ "" ∧ c.country ≠ "" ∧ c.ip_country ≠ c.country then 18 else 0)
        + (if 2 < a then min 25 ((a - 1) * 6) else 0)
        + (if c.device_fingerprint ≠ "" ∧ r ≠ 0 then 22 else 0)
        + (if c.doc_authenticity_score < 60 then 14 else 0)) 100 := by
    intro a
    unfold evaluateFraud
    by_cases q1 : c.ip_country ≠ "" ∧ c.country ≠ "" ∧ c.ip_country ≠ c.country <;>
      by_cases q2 : 2 < a <;>
        by_cases q3 : c.device_fingerprint ≠ "" ∧ r ≠ 0 <;>
          by_cases q4 : c.doc_authenticity_score < 60 <;>
            simp [q1, q2, q3, q4]
  have hB : (if 2 < a1 then min 25 ((a1 - 1) * 6) else 0) ≤
      (if 2 < a2 then min 25 ((a2 - 1) * 6) else 0) := by
    have hub : a1 ≤ 5 := le_trans h12 ha2
    have hlb : 1 ≤ a2 := le_trans ha1 h12
    interval_cases a1 <;> interval_cases a2 <;> decide
  rw [score_eq a1, score_eq a2]
  exact min_le_min (add_le_add (add_le_add (add_le_add le_rfl hB) le_rfl) le_rfl) le_rfl

/-- Witness for C8 at a concrete case and attempt counts 1 and 5. -/
theorem fraud_monotone_in_attempts_witness :
    (1 : Int) ≤ 1 ∧ (1 : Int) ≤ 5 ∧ (5 : Int) ≤ 5 ∧
    (evaluateFraud { baseCase with attempt_count := 1 } 0).1 ≤
      (evaluateFraud { baseCase with attempt_count := 5 } 0).1 :=
  ⟨by decide, by decide, by decide,
    fraud_monotone_in_attempts baseCase 0 1 5 (by decide) (by decide) (by decide)⟩

/-- C9: intake validation rejects any submission with an attempt count
below one — no evaluation runs and the value is never clamped — and every
case that reaches evaluation keeps its submitted attempt count, which is
at least one. -/
theorem intake_rejects_low_attempts (c : Case) (r : Nat) (d : PyDate) :
    (c.attempt_count < 1 → startVerification c r d = none) ∧
    (∀ out : Case, startVerification c r d = some out →
      out.attempt_count = c.attempt_count ∧ 1 ≤ c.attempt_count) := by
  constructor
  · intro h
    unfold startVerification
    rw [if_neg]
    intro heq
    simp [attemptCountFormErrors, h] at heq
  · intro out hout
    unfold startVerification at hout
    by_cases hv : attemptCountFormErrors c.attempt_count = []
    · rw [if_pos hv] at hout
      have hco : out = runFullEvaluation c r d := (Option.some.inj hout).symm
      subst hco
      refine ⟨rfl, ?_⟩
      by_contra hlt
      have h1 : c.attempt_count < 1 := by omega
      simp [attemptCountFormErrors, h1] at hv
    · rw [if_neg hv] at hout
      exact absurd hout (by simp)

/-- Witness for C9: an attempt count of zero is rejected with no evaluated
case, while a valid submission reaches evaluation with its attempt count
intact. -/
theorem intake_rejects_low_attempts_witness :
    caseBadIntake.attempt_count < 1 ∧
    startVerification caseBadIntake 0 today0 = none ∧
    startVerification baseCase 0 today0 = some (runFullEvaluation baseCase 0 today0) ∧
    (runFullEvaluation baseCase 0 today0).attempt_count = baseCase.attempt_count ∧
    1 ≤ baseCase.attempt_count := by
  have hsome : startVerification baseCase 0 today0
      = some (runFullEvaluation baseCase 0 today0) := by
    unfold startVerification
    rw [if_pos (by decide)]
  obtain ⟨h1, h2⟩ :=
    (intake_rejects_low_attempts baseCase 0 today0).2 (runFullEvaluation baseCase 0 today0) hsome
  exact ⟨by decide, (intake_rejects_low_attempts caseBadIntake 0 today0).1 (by decide),
    hsome, h1, h2⟩

/-- C10: the PEP check matches its keywords as raw case-insensitive
substrings of the full name, not as whole words: the pep flag is exactly
the disjunction of the four substring tests, and any name containing "mp"
(such as "Thompson") gets the pep flag and the PEP note. -/
theorem aml_pep_raw_substring (c : Case) :
    ((evaluateAml c).pep =
      (strContains (strLower c.full_name) "minister" ||
        strContains (strLower c.full_name) "senator" ||
        strContains (strLower c.full_name) "mp" ||
        strContains (strLower c.full_name) "council")) ∧
    (strContains (strLower c.full_name) "mp" = true →
      (evaluateAml c).pep = true ∧
      "Potential PEP keyword in name" ∈ (evaluateAml c).notes) := by
  refine ⟨rfl, fun h => ?_⟩
  have hpep : (evaluateAml c).pep = true := by
    show (strContains (strLower c.full_name) "minister" ||
      strContains (strLower c.full_name) "senator" ||
      strContains (strLower c.full_name) "mp" ||
      strContains (strLower c.full_name) "council") = true
    simp [h]
  refine ⟨hpep, ?_⟩
  show "Potential PEP keyword in name" ∈
    ((if (evaluateAml c).pep = true then ["Potential PEP keyword in name"] else []) ++
      (if strEndsWith c.document_number "999" = true
       then ["Document number pattern seen on sanctions list sample"] else []) ++
        (if (evaluateAml c).adverse_media = true
         then ["Email TLD flagged for adverse media screening"] else []))
  rw [hpep]
  simp

/-- Witness for C10 at the name "Alex Thompson". -/
theorem aml_pep_raw_substring_witness :
    strContains (strLower caseThompson.full_name) "mp" = true ∧
    (evaluateAml caseThompson).pep = true ∧
    "Potential PEP keyword in name" ∈ (evaluateAml caseThompson).notes := by
  have h : strContains (strLower caseThompson.full_name) "mp" = true := by decide
  obtain ⟨h1, h2⟩ := (aml_pep_raw_substring caseThompson).2 h
  exact ⟨h, h1, h2⟩

end Veriff
